import Mathlib

/-!
Verification development for the Wayfair Ad Optimization System core
(analyzers and data model), shallowly embedded in Lean 4.

Conventions used throughout this embedding:
* Python floats are modelled as exact rationals. Where numpy or pandas
  division by zero yields an infinity or a NaN rather than raising, an
  explicit extended-value type NPVal captures that semantics.
* round(x, 2) and round(x, 1) use Python semantics: round half to even.
* pandas DataFrame rows built from vars(obj) contain exactly the dataclass
  fields of obj as columns; access to any other column raises KeyError.
  Fallible column access is modelled with Except String, the error value
  being the missing column name.
* Rationale strings (human-readable text built by f-string formatting) are
  not modelled; no claim depends on them.
-/

namespace WayfairAds

/-- Python round-half-to-even on rationals, producing an integer. -/
def pyRound (x : ℚ) : ℤ :=
  if x - ⌊x⌋ = 1 / 2 then (if Even ⌊x⌋ then ⌊x⌋ else ⌊x⌋ + 1) else round x

/-- Python round(x, 2). -/
def round2 (x : ℚ) : ℚ := (pyRound (x * 100) : ℚ) / 100

/-- Python round(x, 1). -/
def round1 (x : ℚ) : ℚ := (pyRound (x * 10) : ℚ) / 10

theorem floor_le_pyRound (x : ℚ) : ⌊x⌋ ≤ pyRound x := by
  unfold pyRound
  split
  · split
    · exact le_refl _
    · omega
  · rw [round_eq]
    exact Int.floor_le_floor (by linarith)

theorem pyRound_le_floor_add_one (x : ℚ) : pyRound x ≤ ⌊x⌋ + 1 := by
  unfold pyRound
  split
  · split <;> omega
  · rw [round_eq]
    have h : x + 1 / 2 < ((⌊x⌋ + 1 : ℤ) : ℚ) + 1 := by
      have := Int.lt_floor_add_one x
      push_cast
      linarith
    have := Int.floor_lt.mpr (by push_cast at h ⊢; linarith : x + 1 / 2 < ((⌊x⌋ + 2 : ℤ) : ℚ))
    -- round x = floor (x + 1/2) and x + 1/2 < floor x + 2, so round x ≤ floor x + 1
    omega

theorem pyRound_mono {x y : ℚ} (h : x ≤ y) : pyRound x ≤ pyRound y := by
  rcases eq_or_lt_of_le h with rfl | hlt
  · exact le_refl _
  by_cases hx : x - ⌊x⌋ = 1 / 2 <;> by_cases hy : y - ⌊y⌋ = 1 / 2
  · -- both exact half ties
    have hfl : ⌊x⌋ ≤ ⌊y⌋ := Int.floor_le_floor h
    rcases eq_or_lt_of_le hfl with heq | hflt
    · exfalso
      have hxx : x = (⌊x⌋ : ℚ) + 1 / 2 := by linarith
      have hyy : y = (⌊y⌋ : ℚ) + 1 / 2 := by linarith
      have : x = y := by rw [hxx, hyy, heq]
      exact absurd this (ne_of_lt hlt)
    · have h1 := pyRound_le_floor_add_one x
      have h2 := floor_le_pyRound y
      omega
  · -- x is a tie, y is not
    have h1 : pyRound y = round y := by unfold pyRound; rw [if_neg hy]
    have h2 : round x ≤ round y := by
      rw [round_eq, round_eq]; exact Int.floor_le_floor (by linarith)
    have h3 : round x = ⌊x⌋ + 1 := by
      rw [round_eq]
      have hxx : x + 1 / 2 = ((⌊x⌋ + 1 : ℤ) : ℚ) := by push_cast; linarith
      rw [hxx, Int.floor_intCast]
    have h4 := pyRound_le_floor_add_one x
    omega
  · -- x is not a tie, y is
    have h1 : pyRound x = round x := by unfold pyRound; rw [if_neg hx]
    have h2 : round x ≤ ⌊y⌋ := by
      rw [round_eq]
      have hyy : y = (⌊y⌋ : ℚ) + 1 / 2 := by linarith
      have hstep : x + 1 / 2 < ((⌊y⌋ + 1 : ℤ) : ℚ) := by
        push_cast
        rw [hyy] at hlt
        linarith
      have := Int.floor_lt.mpr hstep
      omega
    have h3 := floor_le_pyRound y
    omega
  · rw [show pyRound x = round x by unfold pyRound; rw [if_neg hx],
      show pyRound y = round y by unfold pyRound; rw [if_neg hy],
      round_eq, round_eq]
    exact Int.floor_le_floor (by linarith)

theorem pyRound_nonneg {x : ℚ} (h : 0 ≤ x) : 0 ≤ pyRound x := by
  have h1 : (0 : ℤ) ≤ ⌊x⌋ := Int.floor_nonneg.mpr h
  have h2 := floor_le_pyRound x
  omega

theorem round2_mono {x y : ℚ} (h : x ≤ y) : round2 x ≤ round2 y := by
  unfold round2
  have := pyRound_mono (by linarith : x * 100 ≤ y * 100)
  have hc : ((pyRound (x * 100) : ℤ) : ℚ) ≤ ((pyRound (y * 100) : ℤ) : ℚ) := by
    exact_mod_cast this
  linarith

theorem round2_nonneg {x : ℚ} (h : 0 ≤ x) : 0 ≤ round2 x := by
  unfold round2
  have := pyRound_nonneg (by linarith : (0 : ℚ) ≤ x * 100)
  have hc : (0 : ℚ) ≤ ((pyRound (x * 100) : ℤ) : ℚ) := by exact_mod_cast this
  linarith

/-! ## Data model (src/data_ingestion/models.py) -/

/-- Campaign dataclass. roas is a stored field in the source, not a property. -/
structure Campaign where
  campaign_id : String
  campaign_name : String
  status : String
  daily_budget : ℚ
  total_spend : ℚ
  impressions : ℤ
  clicks : ℤ
  conversions : ℤ
  revenue : ℚ
  roas : ℚ
deriving DecidableEq, Repr

/-- Campaign.ctr property: clicks / impressions * 100, guarded. -/
def Campaign.ctr (c : Campaign) : ℚ :=
  if 0 < c.impressions then (c.clicks : ℚ) / (c.impressions : ℚ) * 100 else 0

/-- Campaign.conversion_rate property: conversions / clicks * 100, guarded. -/
def Campaign.conversion_rate (c : Campaign) : ℚ :=
  if 0 < c.clicks then (c.conversions : ℚ) / (c.clicks : ℚ) * 100 else 0

/-- Campaign.cpc property: total_spend / clicks, guarded. -/
def Campaign.cpc (c : Campaign) : ℚ :=
  if 0 < c.clicks then c.total_spend / (c.clicks : ℚ) else 0

/-- Keyword dataclass. The derived metrics roas/ctr/conversion_rate are
Python properties, not stored fields. -/
structure Keyword where
  keyword_id : String
  keyword_text : String
  match_type : String
  campaign_id : String
  current_bid : ℚ
  impressions : ℤ
  clicks : ℤ
  conversions : ℤ
  spend : ℚ
  revenue : ℚ
deriving DecidableEq, Repr

/-- Keyword.roas property: revenue / spend, guarded. -/
def Keyword.roas (k : Keyword) : ℚ :=
  if 0 < k.spend then k.revenue / k.spend else 0

/-- Keyword.ctr property: clicks / impressions * 100, guarded. -/
def Keyword.ctr (k : Keyword) : ℚ :=
  if 0 < k.impressions then (k.clicks : ℚ) / (k.impressions : ℚ) * 100 else 0

/-- Keyword.conversion_rate property: conversions / clicks * 100, guarded. -/
def Keyword.conversion_rate (k : Keyword) : ℚ :=
  if 0 < k.clicks then (k.conversions : ℚ) / (k.clicks : ℚ) * 100 else 0

/-- SearchTerm dataclass (identifier/text bookkeeping fields elided to the
ones the claims touch). -/
structure SearchTerm where
  search_term : String
  keyword_id : Option String
  campaign_id : String
  impressions : ℤ
  clicks : ℤ
  conversions : ℤ
  spend : ℚ
  revenue : ℚ
  supplier_share : ℚ
deriving DecidableEq, Repr

/-- SearchTerm.roas property: revenue / spend, guarded. -/
def SearchTerm.roas (st : SearchTerm) : ℚ :=
  if 0 < st.spend then st.revenue / st.spend else 0

/-- Product dataclass. -/
structure Product where
  sku : String
  product_name : String
  wholesale_cost : ℚ
  retail_price : ℚ
  impressions : ℤ
  clicks : ℤ
  conversions : ℤ
  spend : ℚ
  revenue : ℚ
  inventory_level : Option ℤ
deriving DecidableEq, Repr

/-- Product.roas property: revenue / spend, guarded. -/
def Product.roas (p : Product) : ℚ :=
  if 0 < p.spend then p.revenue / p.spend else 0

/-- Product.margin property: (retail - wholesale) / retail, guarded. -/
def Product.margin (p : Product) : ℚ :=
  if 0 < p.retail_price then (p.retail_price - p.wholesale_cost) / p.retail_price else 0

/-- Product.true_roas property: revenue * margin / spend, guarded. -/
def Product.true_roas (p : Product) : ℚ :=
  if 0 < p.spend then p.revenue * p.margin / p.spend else 0

/-- PerformanceMetrics dataclass (date_range elided). -/
structure PerformanceMetrics where
  total_spend : ℚ
  total_revenue : ℚ
  total_impressions : ℤ
  total_clicks : ℤ
  total_conversions : ℤ
deriving DecidableEq, Repr

/-- PerformanceMetrics.roas property. -/
def PerformanceMetrics.roas (m : PerformanceMetrics) : ℚ :=
  if 0 < m.total_spend then m.total_revenue / m.total_spend else 0

/-- PerformanceMetrics.ctr property. -/
def PerformanceMetrics.ctr (m : PerformanceMetrics) : ℚ :=
  if 0 < m.total_impressions then (m.total_clicks : ℚ) / (m.total_impressions : ℚ) * 100 else 0

/-- PerformanceMetrics.conversion_rate property. -/
def PerformanceMetrics.conversion_rate (m : PerformanceMetrics) : ℚ :=
  if 0 < m.total_clicks then (m.total_conversions : ℚ) / (m.total_clicks : ℚ) * 100 else 0

/-- PerformanceMetrics.acos property. -/
def PerformanceMetrics.acos (m : PerformanceMetrics) : ℚ :=
  if 0 < m.total_revenue then m.total_spend / m.total_revenue * 100 else 0

/-! ## numpy/pandas extended float values

Unguarded division in a numpy/pandas context does not raise: a / 0 yields
+inf for a > 0, -inf for a < 0, and NaN for 0 / 0. Comparisons against NaN
are false. pandas clip(upper=u) caps +inf at u and leaves NaN alone. -/

inductive NPVal where
  | num (q : ℚ)
  | posInf
  | negInf
  | nan
deriving DecidableEq, Repr

/-- numpy division of two extended values. -/
def npDiv : NPVal → NPVal → NPVal
  | NPVal.num a, NPVal.num b =>
      if b = 0 then (if a = 0 then NPVal.nan else if 0 < a then NPVal.posInf else NPVal.negInf)
      else NPVal.num (a / b)
  | NPVal.num _, NPVal.posInf => NPVal.num 0
  | NPVal.num _, NPVal.negInf => NPVal.num 0
  | NPVal.posInf, NPVal.num b => if 0 ≤ b then NPVal.posInf else NPVal.negInf
  | NPVal.negInf, NPVal.num b => if 0 ≤ b then NPVal.negInf else NPVal.posInf
  | NPVal.posInf, NPVal.posInf => NPVal.nan
  | NPVal.posInf, NPVal.negInf => NPVal.nan
  | NPVal.negInf, NPVal.posInf => NPVal.nan
  | NPVal.negInf, NPVal.negInf => NPVal.nan
  | NPVal.nan, _ => NPVal.nan
  | _, NPVal.nan => NPVal.nan

/-- Python comparison v > 0 on an extended value; false for NaN. -/
def npPos : NPVal → Bool
  | NPVal.num q => 0 < q
  | NPVal.posInf => true
  | NPVal.negInf => false
  | NPVal.nan => false

/-- Python min(a, b): returns b exactly when b < a, else a (so NaN as the
first argument propagates). -/
def npMin : NPVal → NPVal → NPVal
  | NPVal.num a, NPVal.num b => NPVal.num (min a b)
  | NPVal.num _, NPVal.negInf => NPVal.negInf
  | NPVal.num a, _ => NPVal.num a
  | NPVal.posInf, b => if b = NPVal.nan then NPVal.posInf else b
  | NPVal.negInf, _ => NPVal.negInf
  | NPVal.nan, _ => NPVal.nan

/-- pandas Series.clip(upper=u) on one value. -/
def npClipUpper (v : NPVal) (u : ℚ) : NPVal :=
  match v with
  | NPVal.num q => NPVal.num (min q u)
  | NPVal.posInf => NPVal.num u
  | NPVal.negInf => NPVal.negInf
  | NPVal.nan => NPVal.nan

/-- numpy subtraction scalar - v, used for 100 - impression_share. -/
def npRsub (a : ℚ) : NPVal → NPVal
  | NPVal.num q => NPVal.num (a - q)
  | NPVal.posInf => NPVal.negInf
  | NPVal.negInf => NPVal.posInf
  | NPVal.nan => NPVal.nan

/-! ## Bid optimization engine (src/analyzers/bid_optimizer.py)

BidOptimizationEngine default configuration constants. -/

def targetRoas : ℚ := 3
def maxBidChange : ℚ := 3 / 10
def minBid : ℚ := 1 / 2
def maxBid : ℚ := 10
def pauseThresholdClicks : ℤ := 100
def pauseThresholdCtr : ℚ := 1 / 10

/-- BidRecommendation dataclass; expected_impact is the Python dict as an
association list, rationale is elided. -/
structure BidRecommendation where
  keyword_id : String
  keyword_text : String
  current_bid : ℚ
  recommended_bid : ℚ
  bid_change_percentage : ℚ
  action : String
  expected_impact : List (String × ℚ)
deriving DecidableEq, Repr

/-- dict.get(key, 0) on the expected_impact mapping. -/
def impactGet (d : List (String × ℚ)) (key : String) : ℚ :=
  (d.lookup key).getD 0

/-- BidOptimizationEngine._calculate_expected_impact, acting on a keyword
record whose derived metrics are the model properties. -/
def calcExpectedImpact (k : Keyword) (current_bid new_bid : ℚ) : List (String × ℚ) :=
  let bid_ratio := if 0 < current_bid then new_bid / current_bid else 1
  let impression_multiplier := 1 + (bid_ratio - 1) * (1 / 2)
  let click_multiplier := impression_multiplier * (1 + (bid_ratio - 1) * (1 / 5))
  let expected_impressions := (k.impressions : ℚ) * impression_multiplier
  let expected_clicks := (k.clicks : ℚ) * click_multiplier
  let expected_spend := expected_clicks * new_bid
  let expected_conversions := expected_clicks * (k.conversion_rate / 100)
  let expected_revenue :=
    expected_conversions * (if 0 < k.conversions then k.revenue / (k.conversions : ℚ) else 100)
  [("impression_change", expected_impressions - (k.impressions : ℚ)),
   ("click_change", expected_clicks - (k.clicks : ℚ)),
   ("spend_change", expected_spend - k.spend),
   ("revenue_change", expected_revenue - k.revenue),
   ("roas_change", (if 0 < expected_spend then expected_revenue / expected_spend else 0) - k.roas)]

/-- BidOptimizationEngine._calculate_target_cpc. -/
def calculateTargetCpc (k : Keyword) : ℚ :=
  let avg_order_value := if k.conversions = 0 then 100 else k.revenue / (k.conversions : ℚ)
  let estimated_cr := if k.conversions = 0 then 1 / 100 else k.conversion_rate / 100
  let t0 := avg_order_value * estimated_cr / targetRoas
  let t1 :=
    if targetRoas * (3 / 2) < k.roas then t0 * (12 / 10)
    else if k.roas < targetRoas * (1 / 2) then t0 * (7 / 10)
    else t0
  max minBid (min t1 maxBid)

/-- BidOptimizationEngine._create_pause_recommendation. -/
def createPauseRecommendation (k : Keyword) : BidRecommendation :=
  { keyword_id := k.keyword_id
    keyword_text := k.keyword_text
    current_bid := k.current_bid
    recommended_bid := 0
    bid_change_percentage := -100
    action := "pause"
    expected_impact := [("spend_savings", k.spend / 30)] }

/-- BidOptimizationEngine._create_increase_recommendation. The competitive
estimate (_get_competitor_avg_bid: the median current_bid of other keywords
sharing the first word with impressions > 100, or None) is abstracted as the
competitor_avg_bid argument; Python truthiness makes a 0.0 median act like
None in the comparison guard. Note that the source computes the change
percentage from the pre-competitor-adjustment bid. -/
def createIncreaseRecommendation (k : Keyword) (target_bid : ℚ)
    (competitor_avg_bid : Option ℚ) : BidRecommendation :=
  let current_bid := k.current_bid
  let max_increase := current_bid * (1 + maxBidChange)
  let rb1 := round2 (min target_bid max_increase)
  let bid_change_pct := (rb1 - current_bid) / current_bid * 100
  let rb2 :=
    match competitor_avg_bid with
    | some comp =>
        if comp ≠ 0 ∧ rb1 < comp * (8 / 10) then round2 (min (comp * (9 / 10)) max_increase)
        else rb1
    | none => rb1
  { keyword_id := k.keyword_id
    keyword_text := k.keyword_text
    current_bid := current_bid
    recommended_bid := rb2
    bid_change_percentage := round1 bid_change_pct
    action := "increase"
    expected_impact := calcExpectedImpact k current_bid rb2 }

/-- BidOptimizationEngine._create_decrease_recommendation. -/
def createDecreaseRecommendation (k : Keyword) (target_bid : ℚ) : BidRecommendation :=
  let current_bid := k.current_bid
  let max_decrease := current_bid * (1 - maxBidChange)
  let rb := round2 (max target_bid (max max_decrease minBid))
  let bid_change_pct := (rb - current_bid) / current_bid * 100
  { keyword_id := k.keyword_id
    keyword_text := k.keyword_text
    current_bid := current_bid
    recommended_bid := rb
    bid_change_percentage := round1 bid_change_pct
    action := "decrease"
    expected_impact := calcExpectedImpact k current_bid rb }

/-- BidOptimizationEngine._analyze_keyword_bid as decision logic over a
per-keyword record that carries its derived metrics (the enriched row the
scorer is written against; the vars()-built row of the actual optimize_bids
loop is modelled separately below). -/
def analyzeKeywordBid (k : Keyword) (competitor_avg_bid : Option ℚ) :
    Option BidRecommendation :=
  if k.impressions < 10 then none
  else if pauseThresholdClicks ≤ k.clicks ∧ k.conversions = 0 then
    some (createPauseRecommendation k)
  else if k.ctr < pauseThresholdCtr ∧ 1000 < k.impressions then
    some (createPauseRecommendation k)
  else
    let target_cpc := calculateTargetCpc k
    let current_cpc := if 0 < k.clicks then k.spend / (k.clicks : ℚ) else k.current_bid
    let bid_ratio := if 0 < current_cpc then target_cpc / current_cpc else 1
    if 11 / 10 < bid_ratio then some (createIncreaseRecommendation k target_cpc competitor_avg_bid)
    else if bid_ratio < 9 / 10 then some (createDecreaseRecommendation k target_cpc)
    else none

/-! ## optimize_bids execution model

optimize_bids builds kw_df = pd.DataFrame([vars(k) for k in keywords]) and
merges in campaign_name. vars() of a dataclass instance returns only the
stored fields, so the row columns are exactly the ten Keyword fields plus
campaign_name; the property-derived columns roas/ctr/conversion_rate do not
exist. Numeric column access is modelled by getColQ, whose error value is
the missing column name (a raised KeyError). String columns (keyword_id,
keyword_text, match_type, campaign_id, campaign_name) all exist and are
read directly off the record where needed. -/

def getColQ (k : Keyword) (c : String) : Except String ℚ :=
  if c = "current_bid" then Except.ok k.current_bid
  else if c = "impressions" then Except.ok (k.impressions : ℚ)
  else if c = "clicks" then Except.ok (k.clicks : ℚ)
  else if c = "conversions" then Except.ok (k.conversions : ℚ)
  else if c = "spend" then Except.ok k.spend
  else if c = "revenue" then Except.ok k.revenue
  else Except.error c

/-- _calculate_expected_impact run against the vars()-built row, with column
accesses in source evaluation order. -/
def calcExpectedImpactRun (k : Keyword) (current_bid new_bid : ℚ) :
    Except String (List (String × ℚ)) := do
  let bid_ratio := if 0 < current_bid then new_bid / current_bid else 1
  let impression_multiplier := 1 + (bid_ratio - 1) * (1 / 2)
  let click_multiplier := impression_multiplier * (1 + (bid_ratio - 1) * (1 / 5))
  let impressions ← getColQ k "impressions"
  let clicks ← getColQ k "clicks"
  let expected_impressions := impressions * impression_multiplier
  let expected_clicks := clicks * click_multiplier
  let conversion_rate ← getColQ k "conversion_rate"
  let expected_conversions := expected_clicks * (conversion_rate / 100)
  let conversions ← getColQ k "conversions"
  let revenue ← getColQ k "revenue"
  let expected_revenue :=
    expected_conversions * (if 0 < conversions then revenue / conversions else 100)
  let expected_spend := expected_clicks * new_bid
  let spend ← getColQ k "spend"
  let roas ← getColQ k "roas"
  return [("impression_change", expected_impressions - impressions),
    ("click_change", expected_clicks - clicks),
    ("spend_change", expected_spend - spend),
    ("revenue_change", expected_revenue - revenue),
    ("roas_change", (if 0 < expected_spend then expected_revenue / expected_spend else 0) - roas)]

/-- _calculate_target_cpc run against the vars()-built row. -/
def calculateTargetCpcRun (k : Keyword) : Except String ℚ := do
  let conversions ← getColQ k "conversions"
  let pair ←
    if conversions = 0 then pure ((100 : ℚ), (1 / 100 : ℚ))
    else do
      let revenue ← getColQ k "revenue"
      let conversion_rate ← getColQ k "conversion_rate"
      pure (revenue / conversions, conversion_rate / 100)
  let t0 := pair.1 * pair.2 / targetRoas
  let roas ← getColQ k "roas"
  let t1 :=
    if targetRoas * (3 / 2) < roas then t0 * (12 / 10)
    else if roas < targetRoas * (1 / 2) then t0 * (7 / 10)
    else t0
  return max minBid (min t1 maxBid)

/-- _create_pause_recommendation run against the vars()-built row. -/
def createPauseRecommendationRun (k : Keyword) : Except String BidRecommendation := do
  let current_bid ← getColQ k "current_bid"
  let spend ← getColQ k "spend"
  return ({ keyword_id := k.keyword_id,
            keyword_text := k.keyword_text,
            current_bid := current_bid,
            recommended_bid := 0,
            bid_change_percentage := -100,
            action := "pause",
            expected_impact := [("spend_savings", spend / 30)] })

/-- _create_increase_recommendation run against the vars()-built row. -/
def createIncreaseRecommendationRun (k : Keyword) (target_bid : ℚ)
    (competitor_avg_bid : Option ℚ) : Except String BidRecommendation := do
  let current_bid ← getColQ k "current_bid"
  let max_increase := current_bid * (1 + maxBidChange)
  let rb1 := round2 (min target_bid max_increase)
  let bid_change_pct := (rb1 - current_bid) / current_bid * 100
  let rb2 :=
    match competitor_avg_bid with
    | some comp =>
        if comp ≠ 0 ∧ rb1 < comp * (8 / 10) then round2 (min (comp * (9 / 10)) max_increase)
        else rb1
    | none => rb1
  let impact ← calcExpectedImpactRun k current_bid rb2
  return ({ keyword_id := k.keyword_id,
            keyword_text := k.keyword_text,
            current_bid := current_bid,
            recommended_bid := rb2,
            bid_change_percentage := round1 bid_change_pct,
            action := "increase",
            expected_impact := impact })

/-- _create_decrease_recommendation run against the vars()-built row. -/
def createDecreaseRecommendationRun (k : Keyword) (target_bid : ℚ) :
    Except String BidRecommendation := do
  let current_bid ← getColQ k "current_bid"
  let max_decrease := current_bid * (1 - maxBidChange)
  let rb := round2 (max target_bid (max max_decrease minBid))
  let bid_change_pct := (rb - current_bid) / current_bid * 100
  let impact ← calcExpectedImpactRun k current_bid rb
  return ({ keyword_id := k.keyword_id,
            keyword_text := k.keyword_text,
            current_bid := current_bid,
            recommended_bid := rb,
            bid_change_percentage := round1 bid_change_pct,
            action := "decrease",
            expected_impact := impact })

/-- _analyze_keyword_bid run against the vars()-built row, reading columns
in source order: impressions, then roas, ctr, conversion_rate (lines 55-57),
then current_bid, clicks, conversions, and so on. -/
def analyzeKeywordBidRun (k : Keyword) (competitor_avg_bid : Option ℚ) :
    Except String (Option BidRecommendation) := do
  let impressions ← getColQ k "impressions"
  if impressions < 10 then return none
  else do
    let _current_roas ← getColQ k "roas"
    let current_ctr ← getColQ k "ctr"
    let _current_cr ← getColQ k "conversion_rate"
    let current_bid ← getColQ k "current_bid"
    let clicks ← getColQ k "clicks"
    let conversions ← getColQ k "conversions"
    if (pauseThresholdClicks : ℚ) ≤ clicks ∧ conversions = 0 then do
      return some (← createPauseRecommendationRun k)
    else if current_ctr < pauseThresholdCtr ∧ 1000 < impressions then do
      return some (← createPauseRecommendationRun k)
    else do
      let target_cpc ← calculateTargetCpcRun k
      let spend ← getColQ k "spend"
      let current_cpc := if 0 < clicks then spend / clicks else current_bid
      let bid_ratio := if 0 < current_cpc then target_cpc / current_cpc else 1
      if 11 / 10 < bid_ratio then do
        return some (← createIncreaseRecommendationRun k target_cpc competitor_avg_bid)
      else if bid_ratio < 9 / 10 then do
        return some (← createDecreaseRecommendationRun k target_cpc)
      else return none

/-- optimize_bids: analyze every merged keyword row in order, keep the
non-None recommendations, and stable-sort by abs(revenue_change) descending.
The campaign list only contributes the (never read) campaign_name column of
the merge, and the competitor median lookup is abstracted by compOf. The
first raised KeyError aborts the run, as in Python. -/
def optimizeBidsRun (keywords : List Keyword) (compOf : Keyword → Option ℚ) :
    Except String (List BidRecommendation) := do
  let analyzed ← keywords.mapM (fun k => analyzeKeywordBidRun k (compOf k))
  let recommendations := analyzed.filterMap id
  return List.insertionSort
    (fun a b => |impactGet b.expected_impact "revenue_change"| ≤
      |impactGet a.expected_impact "revenue_change"|) recommendations

/-! ## Budget allocation optimizer (src/analyzers/budget_allocator.py) -/

def minBudget : ℚ := 10
def maxBudget : ℚ := 1000

/-- BudgetRecommendation dataclass (rationale and expected_impact elided:
the constraint step neither reads nor writes them). -/
structure BudgetRecommendation where
  campaign_id : String
  campaign_name : String
  current_budget : ℚ
  recommended_budget : ℚ
  budget_change : ℚ
  budget_change_percentage : ℚ
  action : String
  priority : ℤ
deriving DecidableEq, Repr

/-- BudgetAllocationOptimizer._apply_budget_constraint: when the sum of all
recommendations' recommended budgets exceeds the constraint, rescale the
delta of every increase-action recommendation by constraint / total. -/
def applyBudgetConstraint (total_budget_constraint : ℚ)
    (recommendations : List BudgetRecommendation) : List BudgetRecommendation :=
  let recommended_total := (recommendations.map (fun r => r.recommended_budget)).sum
  if recommended_total ≤ total_budget_constraint then recommendations
  else
    let scaling_factor := total_budget_constraint / recommended_total
    recommendations.map (fun rec =>
      if rec.action = "increase" then
        let new_budget :=
          round2 (rec.current_budget + (rec.recommended_budget - rec.current_budget) * scaling_factor)
        { rec with
          recommended_budget := new_budget
          budget_change := new_budget - rec.current_budget
          budget_change_percentage := round1 ((new_budget - rec.current_budget) / rec.current_budget * 100) }
      else rec)

/-- _calculate_campaign_metrics budget_utilization column for one campaign
row: (total_spend / historical_days) / daily_budget, then clip(upper=1.0).
The division carries numpy semantics: no zero-denominator guard exists, so
a zero daily_budget produces an infinite or NaN value rather than 0.0. -/
def budgetUtilizationRaw (total_spend : ℚ) (historical_days : ℚ) (daily_budget : ℚ) : NPVal :=
  npDiv (npDiv (NPVal.num total_spend) (NPVal.num historical_days)) (NPVal.num daily_budget)

/-- budget_utilization after the clip(upper=1.0). -/
def budgetUtilization (total_spend historical_days daily_budget : ℚ) : NPVal :=
  npClipUpper (budgetUtilizationRaw total_spend historical_days daily_budget) 1

/-- _calculate_campaign_metrics impression_share for one row:
min(impressions / (impressions / budget_utilization) if budget_utilization > 0
else 0, 100), evaluated with numpy scalar semantics. -/
def impressionShare (impressions : ℚ) (budget_utilization : NPVal) : NPVal :=
  npMin
    (if npPos budget_utilization then
      npDiv (NPVal.num impressions) (npDiv (NPVal.num impressions) budget_utilization)
    else NPVal.num 0)
    (NPVal.num 100)

/-- impression_share_lost = 100 - impression_share. -/
def impressionShareLost (impressions : ℚ) (budget_utilization : NPVal) : NPVal :=
  npRsub 100 (impressionShare impressions budget_utilization)

/-! ## Product performance analyzer (src/analyzers/product_analyzer.py)

analyze_products builds prod_df = pd.DataFrame([vars(p) for p in
products]), whose columns are exactly the ten Product dataclass fields
(inventory_level holding NaN for None); the property-derived columns
roas/margin/true_roas do not exist. _enrich_product_metrics then assigns
new columns onto that frame and _segment_products filters it. A frame row
is modelled as the Product record plus the list of columns added so far,
with fallible numeric column access (KeyError as the missing name). -/

structure ProdRow where
  base : Product
  extra : List (String × ℚ)
deriving DecidableEq, Repr

/-- Numeric column access on a product frame row: enrichment-added columns
first, then the numeric vars() fields; anything else raises KeyError. The
string columns sku/product_name and the optional inventory_level exist and
are read off the record directly where the source uses them. -/
def prodRowGet (r : ProdRow) (c : String) : Except String ℚ :=
  match r.extra.lookup c with
  | some v => Except.ok v
  | none =>
      if c = "wholesale_cost" then Except.ok r.base.wholesale_cost
      else if c = "retail_price" then Except.ok r.base.retail_price
      else if c = "impressions" then Except.ok (r.base.impressions : ℚ)
      else if c = "clicks" then Except.ok (r.base.clicks : ℚ)
      else if c = "conversions" then Except.ok (r.base.conversions : ℚ)
      else if c = "spend" then Except.ok r.base.spend
      else if c = "revenue" then Except.ok r.base.revenue
      else Except.error c

/-- pandas column assignment frame[c] = vals. -/
def addColumn (rows : List ProdRow) (c : String) (vals : List ℚ) : List ProdRow :=
  (rows.zip vals).map (fun rv => { rv.1 with extra := rv.1.extra ++ [(c, rv.2)] })

/-- pandas Series.rank(pct=True): average rank of ties divided by the
series length. -/
def rankPctAvg (xs : List ℚ) : List ℚ :=
  xs.map (fun x =>
    let lt := (xs.filter (fun y => decide (y < x))).length
    let eq := (xs.filter (fun y => decide (y = x))).length
    ((2 * lt + eq + 1 : ℚ) / 2) / (xs.length : ℚ))

/-- ProductPerformanceAnalyzer._enrich_product_metrics, run against the
vars()-built frame with column reads in source order: volume_score (line
59) and volume_percentile (line 61) succeed, efficiency_score (line 63)
reads the nonexistent roas column and raises. The remaining assignments
(scalability_score, growth_potential) are transcribed after it as in the
source. -/
def enrichProductMetricsRun (rows0 : List ProdRow) : Except String (List ProdRow) := do
  let volume_score ← rows0.mapM (fun r => do
    let revenue ← prodRowGet r "revenue"
    let clicks ← prodRowGet r "clicks"
    pure (revenue + clicks * (1 / 10)))
  let rows1 := addColumn rows0 "volume_score" volume_score
  let volume_percentile := (rankPctAvg volume_score).map (fun v => v * 100)
  let rows2 := addColumn rows1 "volume_percentile" volume_percentile
  let efficiency_score ← rows2.mapM (fun r => do
    let roas ← prodRowGet r "roas"
    let troas ← prodRowGet r "true_roas"
    pure (roas * troas))
  let rows3 := addColumn rows2 "efficiency_score" efficiency_score
  let scalability_score ← rows3.mapM (fun r => do
    let conversions ← prodRowGet r "conversions"
    pure (match r.base.inventory_level with
      | some inv => (inv : ℚ) / max conversions 1
      | none => 100))
  let rows4 := addColumn rows3 "scalability_score" scalability_score
  let growth_potential ← rows4.mapM (fun r => do
    let roas ← prodRowGet r "roas"
    let vp ← prodRowGet r "volume_percentile"
    let sc ← prodRowGet r "scalability_score"
    pure (min (roas / 3) 2 * 30 + (100 - vp) * (3 / 10) + min sc 100 * (4 / 10)))
  return addColumn rows4 "growth_potential" growth_potential

/-- Boolean row mask applied to a frame, as pandas filtering by index. -/
def selectRows (rows : List ProdRow) (flags : List Bool) : List ProdRow :=
  ((rows.zip flags).filter (fun rf => rf.2)).map (fun rf => rf.1)

/-- ProductPerformanceAnalyzer._segment_products run against the frame:
the Star/Potential/Worker masks (each reading the roas column, which the
vars()-built frame never gained) and the Cull complement of their union.
Thresholds: target_roas = 3, volume_percentile_threshold = 70,
low_roas_threshold = 2, min_volume_threshold = 10. -/
def segmentProductsRun (rows : List ProdRow) :
    Except String (List ProdRow × List ProdRow × List ProdRow × List ProdRow) := do
  let starFlags ← rows.mapM (fun r => do
    let roas ← prodRowGet r "roas"
    let vp ← prodRowGet r "volume_percentile"
    pure (decide (3 ≤ roas ∧ 70 ≤ vp)))
  let potentialFlags ← rows.mapM (fun r => do
    let roas ← prodRowGet r "roas"
    let vp ← prodRowGet r "volume_percentile"
    let clicks ← prodRowGet r "clicks"
    pure (decide (3 ≤ roas ∧ vp < 70 ∧ 10 ≤ clicks)))
  let workerFlags ← rows.mapM (fun r => do
    let roas ← prodRowGet r "roas"
    let vp ← prodRowGet r "volume_percentile"
    pure (decide (roas < 3 ∧ 2 ≤ roas ∧ 70 ≤ vp)))
  let cullFlags := (starFlags.zip (potentialFlags.zip workerFlags)).map
    (fun f => !f.1 && !f.2.1 && !f.2.2)
  return (selectRows rows starFlags, selectRows rows potentialFlags,
    selectRows rows workerFlags, selectRows rows cullFlags)

/-- The segmentation path of analyze_products (lines 48-52): build the
vars() frame, enrich it, segment it. The first raised KeyError aborts the
run, as in Python. -/
def segmentationRun (products : List Product) :
    Except String (List ProdRow × List ProdRow × List ProdRow × List ProdRow) := do
  let prod_df := products.map (fun p => ProdRow.mk p [])
  let enriched ← enrichProductMetricsRun prod_df
  segmentProductsRun enriched

/-! ## Negative keyword generator (src/analyzers/negative_keyword_finder.py) -/

/-- NegativeKeywordRecommendation dataclass (rationale elided). -/
structure NegativeKeywordRecommendation where
  negative_keyword : String
  match_type : String
  application_level : String
  affected_campaigns : List String
  wasted_spend : ℚ
  wasted_clicks : ℤ
  search_terms_blocked : List String
  confidence_score : ℚ
deriving DecidableEq, Repr

/-- Python str.lower() on the ASCII keyword texts this system handles. -/
def strLower (s : String) : String :=
  String.mk (s.data.map Char.toLower)

/-- The deduplication key: (keyword text lowercased, match type). -/
def recKey (r : NegativeKeywordRecommendation) : String × String :=
  (strLower r.negative_keyword, r.match_type)

/-- Merging a duplicate into the first-seen record for its key: spend and
clicks add, campaign and blocked-term sets union (Python builds the union
set and relists it; dedup is this embedding's deterministic set order),
blocked terms capped at 10; keyword text, match type and confidence of the
first-seen record are kept. -/
def mergeDuplicate (existing rec : NegativeKeywordRecommendation) :
    NegativeKeywordRecommendation :=
  { existing with
    wasted_spend := existing.wasted_spend + rec.wasted_spend
    wasted_clicks := existing.wasted_clicks + rec.wasted_clicks
    affected_campaigns := (existing.affected_campaigns ++ rec.affected_campaigns).dedup
    search_terms_blocked :=
      ((existing.search_terms_blocked ++ rec.search_terms_blocked).dedup).take 10 }

/-- One step of the dedup loop body: a record with a fresh key is appended;
a record with a seen key is merged into its first-seen representative. -/
def dedupStep (acc : List NegativeKeywordRecommendation)
    (rec : NegativeKeywordRecommendation) : List NegativeKeywordRecommendation :=
  if acc.any (fun e => recKey e = recKey rec) then
    acc.map (fun e => if recKey e = recKey rec then mergeDuplicate e rec else e)
  else acc ++ [rec]

/-- NegativeKeywordGenerator._deduplicate_recommendations: iterate over the
input stable-sorted by confidence descending. -/
def deduplicateRecommendations (recommendations : List NegativeKeywordRecommendation) :
    List NegativeKeywordRecommendation :=
  (List.insertionSort (fun a b => b.confidence_score ≤ a.confidence_score)
    recommendations).foldl dedupStep []

/-- Tail of generate_negative_keywords: deduplicate, then stable-sort the
merged list by wasted_spend descending. -/
def dedupAndSort (recommendations : List NegativeKeywordRecommendation) :
    List NegativeKeywordRecommendation :=
  List.insertionSort (fun a b => b.wasted_spend ≤ a.wasted_spend)
    (deduplicateRecommendations recommendations)

/-! ## Claim C1 -/

/-- A well-formed validated keyword (all identifying fields present, valid
match type, positive bid) with just enough impressions to pass the
signal filter. -/
def kwC1 : Keyword :=
  { keyword_id := "KW-1"
    keyword_text := "patio chair"
    match_type := "exact"
    campaign_id := "CAMP-1"
    current_bid := 1
    impressions := 10
    clicks := 5
    conversions := 0
    spend := 4
    revenue := 0 }

/-- C1: the claim states optimize_bids returns a result for every list of
validated keywords and campaigns. It does not: the per-keyword rows are
built from vars(), which omits the property-derived columns, so the scorer
raises KeyError("roas") on the first keyword with at least 10 impressions.
This theorem evaluates the run at such a keyword. -/
theorem c1_optimize_bids_raises_keyerror :
    optimizeBidsRun [kwC1] (fun _ => none) = Except.error "roas" := by
  rfl

/-! ## Claim C6 -/

/-- A well-formed validated product (all identifying fields present,
positive margin). -/
def prodC6 : Product :=
  { sku := "SKU-1"
    product_name := "Oak Table"
    wholesale_cost := 40
    retail_price := 100
    impressions := 1000
    clicks := 30
    conversions := 3
    spend := 60
    revenue := 300
    inventory_level := none }

/-- C6: the claim states segmentation assigns every product of a batch to
exactly one tier. It assigns nothing: the product frame is built from
vars(), which omits the property-derived roas column, so
_enrich_product_metrics raises KeyError("roas") at line 63 before
_segment_products ever runs (whose own Star/Potential/Worker masks read
the same missing column at lines 81, 86 and 92). This theorem evaluates
the segmentation path at a one-product batch. -/
theorem c6_segmentation_raises_keyerror :
    segmentationRun [prodC6] = Except.error "roas" := by
  rfl

/-! ## Claim C7 -/

/-- C7 counterexample: the claim says every derived ratio metric evaluates
to 0.0 on a zero denominator and no ratio computation yields a non-finite
value. budget_utilization in the budget allocator has no guard: a campaign
with total_spend 30 over 30 days and daily_budget 0 produces an infinite
raw ratio, which the clip then turns into 1.0, not 0.0. -/
theorem c7_counterexample :
    budgetUtilizationRaw 30 30 0 = NPVal.posInf ∧
    budgetUtilizationRaw 30 30 0 ≠ NPVal.num 0 ∧
    budgetUtilization 30 30 0 = NPVal.num 1 := by
  have hraw : budgetUtilizationRaw 30 30 0 = NPVal.posInf := by
    norm_num [budgetUtilizationRaw, npDiv]
  refine ⟨hraw, ?_, ?_⟩
  · rw [hraw]; intro h; cases h
  · unfold budgetUtilization
    rw [hraw]
    simp [npClipUpper]

/-- C7 amended: every ratio property of the data model (roas, ctr,
conversion_rate, cpc, margin, true_roas, acos) is guarded and evaluates to
0.0 on a zero denominator; but the budget allocator's budget_utilization
and impression_share ratios are unguarded: a positive spend over a zero
daily budget gives +inf (clipped to 1.0), and a zero-impression campaign
with positive utilization gives NaN impression share. -/
theorem c7_ratio_guards :
    (∀ c : Campaign, c.impressions = 0 → c.ctr = 0) ∧
    (∀ c : Campaign, c.clicks = 0 → c.conversion_rate = 0 ∧ c.cpc = 0) ∧
    (∀ k : Keyword, k.spend = 0 → k.roas = 0) ∧
    (∀ k : Keyword, k.impressions = 0 → k.ctr = 0) ∧
    (∀ k : Keyword, k.clicks = 0 → k.conversion_rate = 0) ∧
    (∀ st : SearchTerm, st.spend = 0 → st.roas = 0) ∧
    (∀ p : Product, p.spend = 0 → p.roas = 0 ∧ p.true_roas = 0) ∧
    (∀ p : Product, p.retail_price = 0 → p.margin = 0) ∧
    (∀ m : PerformanceMetrics, m.total_spend = 0 → m.roas = 0) ∧
    (∀ m : PerformanceMetrics, m.total_impressions = 0 → m.ctr = 0) ∧
    (∀ m : PerformanceMetrics, m.total_clicks = 0 → m.conversion_rate = 0) ∧
    (∀ m : PerformanceMetrics, m.total_revenue = 0 → m.acos = 0) ∧
    (∀ total_spend historical_days : ℚ, 0 < total_spend → 0 < historical_days →
      budgetUtilizationRaw total_spend historical_days 0 = NPVal.posInf) ∧
    (∀ bu : ℚ, 0 < bu → impressionShare 0 (NPVal.num bu) = NPVal.nan) := by
  refine ⟨?_, ?_, ?_, ?_, ?_, ?_, ?_, ?_, ?_, ?_, ?_, ?_, ?_, ?_⟩
  · intro c h; simp [Campaign.ctr, h]
  · intro c h; simp [Campaign.conversion_rate, Campaign.cpc, h]
  · intro k h; simp [Keyword.roas, h]
  · intro k h; simp [Keyword.ctr, h]
  · intro k h; simp [Keyword.conversion_rate, h]
  · intro st h; simp [SearchTerm.roas, h]
  · intro p h; simp [Product.roas, Product.true_roas, h]
  · intro p h; simp [Product.margin, h]
  · intro m h; simp [PerformanceMetrics.roas, h]
  · intro m h; simp [PerformanceMetrics.ctr, h]
  · intro m h; simp [PerformanceMetrics.conversion_rate, h]
  · intro m h; simp [PerformanceMetrics.acos, h]
  · intro ts hd hts hhd
    have h1 : hd ≠ 0 := ne_of_gt hhd
    have h2 : ts / hd ≠ 0 := div_ne_zero (ne_of_gt hts) h1
    have h3 : 0 < ts / hd := div_pos hts hhd
    simp [budgetUtilizationRaw, npDiv, h1, h2, h3]
  · intro bu hbu
    have h1 : npPos (NPVal.num bu) = true := by simp [npPos, hbu]
    simp [impressionShare, h1, npDiv, ne_of_gt hbu, npMin]

/-- A keyword with zero spend, used as the C7 non-vacuity instance. -/
def kwC7 : Keyword :=
  { keyword_id := "KW-7"
    keyword_text := "sofa"
    match_type := "broad"
    campaign_id := "CAMP-7"
    current_bid := 1
    impressions := 0
    clicks := 0
    conversions := 0
    spend := 0
    revenue := 5 }

/-- Non-vacuity check for C7 at concrete degenerate records. -/
theorem c7_ratio_guards_witness : kwC7.spend = 0 ∧ kwC7.roas = 0 :=
  ⟨rfl, c7_ratio_guards.2.2.1 kwC7 rfl⟩

/-! ## Claim C10 -/

/-- C10: reproducing the literal impression-share arithmetic. For a
campaign row with positive impressions and positive (clipped) utilization,
impressions / (impressions / bu) collapses to bu exactly, so the computed
impression share equals the budget utilization (at most 1 after the clip)
and the lost share 100 - bu is at least 99; with zero utilization the share
is 0 and the lost share is 100. -/
theorem c10_impression_share_eq_utilization (impressions bu : ℚ)
    (h1 : 0 < impressions) (h2 : 0 < bu) (h3 : bu ≤ 1) :
    impressionShare impressions (NPVal.num bu) = NPVal.num bu ∧
    impressionShareLost impressions (NPVal.num bu) = NPVal.num (100 - bu) ∧
    99 ≤ 100 - bu ∧
    (∀ x : ℚ, impressionShare x (NPVal.num 0) = NPVal.num 0 ∧
      impressionShareLost x (NPVal.num 0) = NPVal.num 100) := by
  have hshare : impressionShare impressions (NPVal.num bu) = NPVal.num bu := by
    have hpos : npPos (NPVal.num bu) = true := by simp [npPos, h2]
    have hbu : bu ≠ 0 := ne_of_gt h2
    have hquot : impressions / bu ≠ 0 := div_ne_zero (ne_of_gt h1) hbu
    have hcollapse : impressions / (impressions / bu) = bu := by
      have h1x : impressions ≠ 0 := ne_of_gt h1
      field_simp
    have hmin : min bu (100 : ℚ) = bu := min_eq_left (by linarith)
    simp [impressionShare, hpos, npDiv, hbu, hquot, hcollapse, npMin, hmin]
  refine ⟨hshare, ?_, by linarith, ?_⟩
  · rw [impressionShareLost, hshare]
    simp [npRsub]
  · intro x
    have hpos : npPos (NPVal.num 0) = false := by simp [npPos]
    have hzero : impressionShare x (NPVal.num 0) = NPVal.num 0 := by
      have hmin : min (0 : ℚ) (100 : ℚ) = 0 := min_eq_left (by norm_num)
      simp [impressionShare, hpos, npMin, hmin]
    refine ⟨hzero, ?_⟩
    rw [impressionShareLost, hzero]
    simp [npRsub]

/-- Non-vacuity check for C10 at concrete numbers. -/
theorem c10_impression_share_witness :
    impressionShare 5000 (NPVal.num (3 / 4)) = NPVal.num (3 / 4) ∧
    impressionShareLost 5000 (NPVal.num (3 / 4)) = NPVal.num (100 - 3 / 4) :=
  ⟨(c10_impression_share_eq_utilization 5000 (3 / 4) (by norm_num) (by norm_num)
      (by norm_num)).1,
    (c10_impression_share_eq_utilization 5000 (3 / 4) (by norm_num) (by norm_num)
      (by norm_num)).2.1⟩

/-! ## Claim C2 -/

/-- A keyword whose 30 percent bid ceiling is 0.76 * 1.3 = 0.988; rounding
to cents pushes the recommended increase to 0.99, above the ceiling. -/
def kwC2 : Keyword :=
  { keyword_id := "KW-2"
    keyword_text := "oak table"
    match_type := "exact"
    campaign_id := "CAMP-2"
    current_bid := 76 / 100
    impressions := 500
    clicks := 20
    conversions := 2
    spend := 10
    revenue := 100 }

/-- C2 counterexample: an increase recommendation whose recommended bid,
after rounding to 2 decimals, exceeds current_bid * 1.30. -/
theorem c2_counterexample :
    (createIncreaseRecommendation kwC2 5 none).recommended_bid = 99 / 100 ∧
    ¬(createIncreaseRecommendation kwC2 5 none).recommended_bid ≤
      kwC2.current_bid * (13 / 10) := by
  have hval : (createIncreaseRecommendation kwC2 5 none).recommended_bid =
      round2 (min (5 : ℚ) (kwC2.current_bid * (1 + maxBidChange))) := rfl
  have hv : (createIncreaseRecommendation kwC2 5 none).recommended_bid = 99 / 100 := by
    rw [hval]
    norm_num [kwC2, maxBidChange, round2, pyRound, round_eq, min_def]
  refine ⟨hv, ?_⟩
  rw [hv]
  norm_num [kwC2]

/-- C2 amended: the rounded-cap bounds. An increase recommendation never
exceeds round2(current_bid * 1.30) (so at most half a cent above the 30
percent ceiling, competitor adjustment included); a decrease recommendation
never goes below round2(max(current_bid * 0.70, min_bid)) and in particular
never below the absolute min_bid = 0.50. -/
theorem c2_bid_change_bounds (k : Keyword) (target_bid : ℚ) (comp : Option ℚ) :
    (createIncreaseRecommendation k target_bid comp).recommended_bid ≤
      round2 (k.current_bid * (1 + maxBidChange)) ∧
    round2 (max (k.current_bid * (1 - maxBidChange)) minBid) ≤
      (createDecreaseRecommendation k target_bid).recommended_bid ∧
    minBid ≤ (createDecreaseRecommendation k target_bid).recommended_bid := by
  refine ⟨?_, ?_, ?_⟩
  · unfold createIncreaseRecommendation
    cases comp with
    | none => exact round2_mono (min_le_right _ _)
    | some c =>
        simp only
        split_ifs <;> exact round2_mono (min_le_right _ _)
  · unfold createDecreaseRecommendation
    exact round2_mono (le_max_right _ _)
  · unfold createDecreaseRecommendation
    have h1 : minBid ≤ max target_bid (max (k.current_bid * (1 - maxBidChange)) minBid) :=
      le_trans (le_max_right _ _) (le_max_right _ _)
    have h2 : round2 minBid = minBid := by
      norm_num [round2, pyRound, minBid, round_eq]
    calc minBid = round2 minBid := h2.symm
      _ ≤ _ := round2_mono h1

/-! ## Claim C3 -/

/-- An increase recommendation: 50 to 100. -/
def rIncC3 : BudgetRecommendation :=
  { campaign_id := "B-31"
    campaign_name := "Brand"
    current_budget := 50
    recommended_budget := 100
    budget_change := 50
    budget_change_percentage := 100
    action := "increase"
    priority := 1 }

/-- A decrease recommendation: 500 down to 450. -/
def rDecC3 : BudgetRecommendation :=
  { campaign_id := "B-32"
    campaign_name := "Generic"
    current_budget := 500
    recommended_budget := 450
    budget_change := -50
    budget_change_percentage := -10
    action := "decrease"
    priority := 4 }

/-- C3 counterexample: the claim triggers scaling exactly when the sum of
the increase-recommendations' new budgets (here 100) exceeds the
constraint (500), so it predicts no scaling; the code instead compares the
constraint against the total over ALL recommendations (100 + 450 = 550 >
500) and rescales the increase. -/
theorem c3_counterexample :
    ((([rIncC3, rDecC3].filter (fun r => r.action == "increase")).map
      (fun r => r.recommended_budget)).sum ≤ 500) ∧
    applyBudgetConstraint 500 [rIncC3, rDecC3] ≠ [rIncC3, rDecC3] := by
  have hmap : (applyBudgetConstraint 500 [rIncC3, rDecC3]).map
      (fun r => r.recommended_budget) = [9545 / 100, 450] := by
    have hneq : ¬((([rIncC3, rDecC3]).map
        (fun r => r.recommended_budget)).sum ≤ (500 : ℚ)) := by
      norm_num [rIncC3, rDecC3]
    unfold applyBudgetConstraint
    rw [if_neg hneq]
    simp [rIncC3, rDecC3]
    norm_num [round2, pyRound, round_eq, Int.fract]
  constructor
  · have hsum : (([rIncC3, rDecC3].filter (fun r => r.action == "increase")).map
        (fun r => r.recommended_budget)).sum = 100 := by
      simp [rIncC3, rDecC3, List.filter]
    rw [hsum]
    norm_num
  · intro h
    rw [h] at hmap
    norm_num [rIncC3, rDecC3] at hmap

/-- C3 amended: scaling is triggered exactly when the sum of ALL
recommendations' recommended budgets (increases, decreases and pauses
alike) exceeds the constraint; every increase-recommendation's budget then
becomes round2(current + (proposed - current) * (constraint / total)) with
total that same all-recommendation sum, while non-increase recommendations
pass through unchanged. -/
theorem c3_constraint_scaling (c : ℚ) (recs : List BudgetRecommendation) :
    ((recs.map (fun r => r.recommended_budget)).sum ≤ c →
      applyBudgetConstraint c recs = recs) ∧
    (c < (recs.map (fun r => r.recommended_budget)).sum →
      applyBudgetConstraint c recs = recs.map (fun r =>
        if r.action = "increase" then
          { r with
            recommended_budget := round2 (r.current_budget +
              (r.recommended_budget - r.current_budget) *
              (c / (recs.map (fun r2 => r2.recommended_budget)).sum))
            budget_change := round2 (r.current_budget +
              (r.recommended_budget - r.current_budget) *
              (c / (recs.map (fun r2 => r2.recommended_budget)).sum)) - r.current_budget
            budget_change_percentage := round1 ((round2 (r.current_budget +
              (r.recommended_budget - r.current_budget) *
              (c / (recs.map (fun r2 => r2.recommended_budget)).sum)) - r.current_budget) /
              r.current_budget * 100) }
        else r)) := by
  constructor
  · intro h
    unfold applyBudgetConstraint
    rw [if_pos h]
  · intro h
    unfold applyBudgetConstraint
    rw [if_neg (not_le.mpr h)]

/-- Non-vacuity check for C3: a constraint of 600 is not exceeded by the
550 total, so the recommendations pass through untouched. -/
theorem c3_constraint_scaling_witness :
    (([rIncC3, rDecC3].map (fun r => r.recommended_budget)).sum ≤ 600) ∧
    applyBudgetConstraint 600 [rIncC3, rDecC3] = [rIncC3, rDecC3] :=
  ⟨by norm_num [rIncC3, rDecC3],
    (c3_constraint_scaling 600 [rIncC3, rDecC3]).1 (by norm_num [rIncC3, rDecC3])⟩

/-! ## Claim C8 -/

/-- An increase recommendation on a campaign whose current budget sits
below min_budget. -/
def rIncC8 : BudgetRecommendation :=
  { campaign_id := "B-81"
    campaign_name := "Tiny"
    current_budget := 5
    recommended_budget := 15 / 2
    budget_change := 5 / 2
    budget_change_percentage := 50
    action := "increase"
    priority := 2 }

/-- C8 counterexample: with constraint 6 against a proposed total of 7.5
the scaling produces a budget of 7.00, below min_budget = 10; the claimed
clamp to min_budget does not exist in the code. -/
theorem c8_counterexample :
    (applyBudgetConstraint 6 [rIncC8]).map (fun r => r.recommended_budget) = [7] ∧
    (7 : ℚ) < minBudget := by
  constructor
  · unfold applyBudgetConstraint
    norm_num [rIncC8, round2, pyRound, round_eq]
  · norm_num [minBudget]

/-- C8 amended: the constraint scaling never produces a negative budget
(every scaled increase stays at or above its own nonnegative current
budget before rounding, and rounding preserves nonnegativity), but there
is no clamp to min_budget: a scaled budget may land below min_budget
whenever the current budget is below it. -/
theorem c8_scaled_budgets_nonneg (c : ℚ) (recs : List BudgetRecommendation)
    (hc : 0 < c)
    (h : ∀ r ∈ recs, 0 ≤ r.recommended_budget ∧
      (r.action = "increase" → 0 ≤ r.current_budget ∧
        r.current_budget ≤ r.recommended_budget)) :
    ∀ r2 ∈ applyBudgetConstraint c recs, 0 ≤ r2.recommended_budget := by
  intro r2 hr2
  unfold applyBudgetConstraint at hr2
  by_cases htot : (recs.map (fun r => r.recommended_budget)).sum ≤ c
  · rw [if_pos htot] at hr2
    exact (h r2 hr2).1
  · rw [if_neg htot] at hr2
    rcases List.mem_map.mp hr2 with ⟨r, hr, hfr⟩
    by_cases ha : r.action = "increase"
    · rw [← hfr]
      simp only [ha, if_pos, if_true]
      apply round2_nonneg
      have h1 := (h r hr).2 ha
      have htot2 : 0 < (recs.map (fun r => r.recommended_budget)).sum :=
        lt_trans hc (lt_of_not_le htot)
      have hsf : 0 ≤ c / (recs.map (fun r => r.recommended_budget)).sum :=
        le_of_lt (div_pos hc htot2)
      have hdelta : 0 ≤ r.recommended_budget - r.current_budget := sub_nonneg.mpr h1.2
      nlinarith [mul_nonneg hdelta hsf, h1.1]
    · rw [← hfr]
      simp only [ha, if_neg, if_false, not_false_iff]
      exact (h r hr).1

/-- Non-vacuity check for C8: the scaled-down 7.00 budget is nonnegative. -/
theorem c8_scaled_budgets_nonneg_witness :
    (0 : ℚ) < 6 ∧ ∀ r2 ∈ applyBudgetConstraint 6 [rIncC8], 0 ≤ r2.recommended_budget :=
  ⟨by norm_num,
    c8_scaled_budgets_nonneg 6 [rIncC8] (by norm_num)
      (by
        intro r hr
        rw [List.mem_singleton] at hr
        subst hr
        refine ⟨by norm_num [rIncC8], fun _ => ⟨by norm_num [rIncC8], by norm_num [rIncC8]⟩⟩)⟩

/-! ## Claim C4 -/

/-- A keyword with 10 clicks at an average cost of 0.50 but a 1.00 bid. -/
def kwC4 : Keyword :=
  { keyword_id := "KW-4"
    keyword_text := "bar stool"
    match_type := "phrase"
    campaign_id := "CAMP-4"
    current_bid := 1
    impressions := 100
    clicks := 10
    conversions := 0
    spend := 5
    revenue := 0 }

/-- C4 counterexample: with new_bid = current_bid the bid ratio is 1 and
both multipliers are 1, so the claim (projected spend = current spend
scaled by the multipliers) predicts a spend change of 0; the code instead
projects spend as projected clicks * new bid, giving a change of
10 * 1 - 5 = 5. -/
theorem c4_counterexample :
    impactGet (calcExpectedImpact kwC4 1 1) "spend_change" = 5 ∧
    impactGet (calcExpectedImpact kwC4 1 1) "spend_change" ≠ 0 := by
  have h : impactGet (calcExpectedImpact kwC4 1 1) "spend_change" = 5 := by
    simp [calcExpectedImpact, impactGet, kwC4, List.lookup]
    norm_num
  exact ⟨h, by rw [h]; norm_num⟩

/-- C4 amended: projected impressions and clicks follow the claimed
multipliers exactly, but projected spend is projected clicks times the new
bid (not current spend scaled by the click multiplier), and projected
revenue is projected conversions times the average order value: this
equals current revenue scaled by the click multiplier when the keyword has
clicks and conversions, and is 0 when conversions = 0 (the $100
average-order-value fallback is multiplied by the held-constant conversion
rate, which is then 0). -/
theorem c4_impact_formulas (k : Keyword) (current_bid new_bid : ℚ) :
    ((calcExpectedImpact k current_bid new_bid).lookup "impression_change" =
      some ((k.impressions : ℚ) *
        (1 + ((if 0 < current_bid then new_bid / current_bid else 1) - 1) * (1 / 2)) -
        (k.impressions : ℚ))) ∧
    ((calcExpectedImpact k current_bid new_bid).lookup "click_change" =
      some ((k.clicks : ℚ) *
        ((1 + ((if 0 < current_bid then new_bid / current_bid else 1) - 1) * (1 / 2)) *
          (1 + ((if 0 < current_bid then new_bid / current_bid else 1) - 1) * (1 / 5))) -
        (k.clicks : ℚ))) ∧
    ((calcExpectedImpact k current_bid new_bid).lookup "spend_change" =
      some ((k.clicks : ℚ) *
        ((1 + ((if 0 < current_bid then new_bid / current_bid else 1) - 1) * (1 / 2)) *
          (1 + ((if 0 < current_bid then new_bid / current_bid else 1) - 1) * (1 / 5))) *
        new_bid - k.spend)) ∧
    (k.conversions = 0 →
      (calcExpectedImpact k current_bid new_bid).lookup "revenue_change" =
        some (0 - k.revenue)) ∧
    (0 < k.conversions → 0 < k.clicks →
      (calcExpectedImpact k current_bid new_bid).lookup "revenue_change" =
        some (k.revenue *
          ((1 + ((if 0 < current_bid then new_bid / current_bid else 1) - 1) * (1 / 2)) *
            (1 + ((if 0 < current_bid then new_bid / current_bid else 1) - 1) * (1 / 5))) -
          k.revenue)) := by
  refine ⟨?_, ?_, ?_, ?_, ?_⟩
  · simp [calcExpectedImpact, List.lookup]
  · simp [calcExpectedImpact, List.lookup]
  · simp [calcExpectedImpact, List.lookup]
  · intro h0
    have hcr : k.conversion_rate = 0 := by
      unfold Keyword.conversion_rate
      rw [h0]
      simp
    simp [calcExpectedImpact, List.lookup, hcr, h0]
  · intro hconv hclicks
    have hcr : k.conversion_rate = (k.conversions : ℚ) / (k.clicks : ℚ) * 100 := by
      unfold Keyword.conversion_rate
      rw [if_pos hclicks]
    have hc0 : (k.clicks : ℚ) ≠ 0 := Int.cast_ne_zero.mpr (ne_of_gt hclicks)
    have hv0 : (k.conversions : ℚ) ≠ 0 := Int.cast_ne_zero.mpr (ne_of_gt hconv)
    simp [calcExpectedImpact, List.lookup, hcr, hconv]
    field_simp
    ring

/-- A converting keyword used as the C4 non-vacuity instance. -/
def kwC4w : Keyword :=
  { keyword_id := "KW-41"
    keyword_text := "desk lamp"
    match_type := "exact"
    campaign_id := "CAMP-4"
    current_bid := 1
    impressions := 1000
    clicks := 50
    conversions := 5
    spend := 40
    revenue := 300 }

/-- Non-vacuity check for C4: a converting keyword projected at a higher
bid. -/
theorem c4_impact_formulas_witness :
    (0 : ℤ) < kwC4w.conversions ∧ (0 : ℤ) < kwC4w.clicks ∧
      (calcExpectedImpact kwC4w 1 (6 / 5)).lookup "revenue_change" =
        some (kwC4w.revenue *
          ((1 + ((if 0 < (1 : ℚ) then (6 / 5) / 1 else 1) - 1) * (1 / 2)) *
            (1 + ((if 0 < (1 : ℚ) then (6 / 5) / 1 else 1) - 1) * (1 / 5))) -
          kwC4w.revenue) :=
  ⟨by norm_num [kwC4w], by norm_num [kwC4w],
    (c4_impact_formulas kwC4w 1 (6 / 5)).2.2.2.2 (by norm_num [kwC4w])
      (by norm_num [kwC4w])⟩

/-! ## Claim C5 -/

/-- C5: over keywords that pass the 10-impression signal filter, the bid
scorer emits a pause recommendation exactly when clicks >= 100 with zero
conversions, or ctr < 0.10 percent with impressions > 1000; and every
pause recommendation carries recommended bid 0.0 and change -100.0. -/
theorem c5_pause_iff (k : Keyword) (comp : Option ℚ) (h : 10 ≤ k.impressions) :
    ((∃ rec, analyzeKeywordBid k comp = some rec ∧ rec.action = "pause") ↔
      ((pauseThresholdClicks ≤ k.clicks ∧ k.conversions = 0) ∨
        (k.ctr < pauseThresholdCtr ∧ 1000 < k.impressions))) ∧
    (∀ rec, analyzeKeywordBid k comp = some rec → rec.action = "pause" →
      rec.recommended_bid = 0 ∧ rec.bid_change_percentage = -100) := by
  have hni : ¬k.impressions < 10 := not_lt.mpr h
  by_cases h1 : pauseThresholdClicks ≤ k.clicks ∧ k.conversions = 0
  · have heq : analyzeKeywordBid k comp = some (createPauseRecommendation k) := by
      unfold analyzeKeywordBid
      rw [if_neg hni, if_pos h1]
    refine ⟨⟨fun _ => Or.inl h1, fun _ => ⟨createPauseRecommendation k, heq, rfl⟩⟩, ?_⟩
    intro rec hrec _
    rw [heq] at hrec
    injection hrec with h3
    rw [← h3]
    exact ⟨rfl, rfl⟩
  · by_cases h2 : k.ctr < pauseThresholdCtr ∧ 1000 < k.impressions
    · have heq : analyzeKeywordBid k comp = some (createPauseRecommendation k) := by
        unfold analyzeKeywordBid
        rw [if_neg hni, if_neg h1, if_pos h2]
      refine ⟨⟨fun _ => Or.inr h2, fun _ => ⟨createPauseRecommendation k, heq, rfl⟩⟩, ?_⟩
      intro rec hrec _
      rw [heq] at hrec
      injection hrec with h3
      rw [← h3]
      exact ⟨rfl, rfl⟩
    · have hcases : analyzeKeywordBid k comp =
          some (createIncreaseRecommendation k (calculateTargetCpc k) comp) ∨
          analyzeKeywordBid k comp =
            some (createDecreaseRecommendation k (calculateTargetCpc k)) ∨
          analyzeKeywordBid k comp = none := by
        unfold analyzeKeywordBid
        rw [if_neg hni, if_neg h1, if_neg h2]
        dsimp only
        split_ifs <;>
          first
          | exact Or.inl rfl
          | exact Or.inr (Or.inl rfl)
          | exact Or.inr (Or.inr rfl)
      refine ⟨⟨?_, ?_⟩, ?_⟩
      · rintro ⟨rec, hrec, hact⟩
        rcases hcases with hc | hc | hc <;> rw [hc] at hrec
        · injection hrec with h3
          rw [← h3] at hact
          simp [createIncreaseRecommendation] at hact
        · injection hrec with h3
          rw [← h3] at hact
          simp [createDecreaseRecommendation] at hact
        · cases hrec
      · rintro (hx | hx)
        · exact absurd hx h1
        · exact absurd hx h2
      · intro rec hrec hact
        rcases hcases with hc | hc | hc <;> rw [hc] at hrec
        · injection hrec with h3
          rw [← h3] at hact
          simp [createIncreaseRecommendation] at hact
        · injection hrec with h3
          rw [← h3] at hact
          simp [createDecreaseRecommendation] at hact
        · cases hrec

/-- A high-impression zero-click keyword, paused by the low-CTR rule. -/
def kwC5w : Keyword :=
  { keyword_id := "KW-5"
    keyword_text := "floor mirror"
    match_type := "broad"
    campaign_id := "CAMP-5"
    current_bid := 2
    impressions := 2000
    clicks := 0
    conversions := 0
    spend := 0
    revenue := 0 }

/-- Non-vacuity check for C5: the low-CTR rule pauses kwC5w. -/
theorem c5_pause_iff_witness :
    ∃ rec, analyzeKeywordBid kwC5w none = some rec ∧ rec.action = "pause" :=
  ((c5_pause_iff kwC5w none (by norm_num [kwC5w])).1).mpr
    (Or.inr ⟨by norm_num [Keyword.ctr, kwC5w, pauseThresholdCtr], by norm_num [kwC5w]⟩)

/-! ## Claim C9 -/

/-- Folding the dedup step over a two-element batch with a shared key
merges the later record into the first. -/
theorem dedup_pair (a b : NegativeKeywordRecommendation) (hab : recKey a = recKey b) :
    List.foldl dedupStep [] [a, b] = [mergeDuplicate a b] := by
  have h1 : dedupStep [] a = [a] := by simp [dedupStep]
  show dedupStep (dedupStep [] a) b = [mergeDuplicate a b]
  rw [h1]
  unfold dedupStep
  rw [if_pos (by simp [hab])]
  simp [hab]

/-- C9: two recommendations sharing a (lowercased keyword, match type) key
collapse under deduplication into a single record whose wasted spend and
clicks are the sums, whose confidence is the maximum, whose affected
campaigns are the union, and whose blocked terms are the union capped at
10; and the final merged list (dedup then sort) is always sorted by wasted
spend descending. -/
theorem c9_dedup_merge (r1 r2 : NegativeKeywordRecommendation)
    (l : List NegativeKeywordRecommendation) (hkey : recKey r1 = recKey r2) :
    (∃ m, deduplicateRecommendations [r1, r2] = [m] ∧
      recKey m = recKey r1 ∧
      m.wasted_spend = r1.wasted_spend + r2.wasted_spend ∧
      m.wasted_clicks = r1.wasted_clicks + r2.wasted_clicks ∧
      m.confidence_score = max r1.confidence_score r2.confidence_score ∧
      m.affected_campaigns.toFinset =
        r1.affected_campaigns.toFinset ∪ r2.affected_campaigns.toFinset ∧
      m.search_terms_blocked.toFinset ⊆
        r1.search_terms_blocked.toFinset ∪ r2.search_terms_blocked.toFinset ∧
      m.search_terms_blocked.length =
        min 10 (r1.search_terms_blocked.toFinset ∪ r2.search_terms_blocked.toFinset).card) ∧
    (dedupAndSort l).Sorted (fun a b => b.wasted_spend ≤ a.wasted_spend) := by
  constructor
  · unfold deduplicateRecommendations
    by_cases hc : r2.confidence_score ≤ r1.confidence_score
    · have hsort : List.insertionSort
          (fun a b => b.confidence_score ≤ a.confidence_score) [r1, r2] = [r1, r2] := by
        simp [List.insertionSort, List.orderedInsert, hc]
      rw [hsort, dedup_pair r1 r2 hkey]
      refine ⟨mergeDuplicate r1 r2, rfl, rfl, rfl, rfl, (max_eq_left hc).symm, ?_, ?_, ?_⟩
      · show ((r1.affected_campaigns ++ r2.affected_campaigns).dedup).toFinset = _
        ext x
        simp [List.mem_dedup]
      · intro x hx
        simp only [List.mem_toFinset] at hx
        have hx2 : x ∈ (r1.search_terms_blocked ++ r2.search_terms_blocked).dedup :=
          List.take_subset _ _ hx
        rw [List.mem_dedup, List.mem_append] at hx2
        simpa [List.mem_toFinset] using hx2
      · show ((r1.search_terms_blocked ++ r2.search_terms_blocked).dedup.take 10).length = _
        rw [List.length_take]
        congr 1
        rw [← List.toFinset_append]
        exact (List.card_toFinset _).symm
    · have hsort : List.insertionSort
          (fun a b => b.confidence_score ≤ a.confidence_score) [r1, r2] = [r2, r1] := by
        simp [List.insertionSort, List.orderedInsert, hc]
      rw [hsort, dedup_pair r2 r1 hkey.symm]
      refine ⟨mergeDuplicate r2 r1, rfl, hkey.symm, add_comm _ _, add_comm _ _,
        (max_eq_right (le_of_not_le hc)).symm, ?_, ?_, ?_⟩
      · show ((r2.affected_campaigns ++ r1.affected_campaigns).dedup).toFinset = _
        ext x
        simp [List.mem_dedup, or_comm]
      · intro x hx
        simp only [List.mem_toFinset] at hx
        have hx2 : x ∈ (r2.search_terms_blocked ++ r1.search_terms_blocked).dedup :=
          List.take_subset _ _ hx
        rw [List.mem_dedup, List.mem_append] at hx2
        rcases hx2 with hx2 | hx2 <;> simp [List.mem_toFinset, hx2]
      · show ((r2.search_terms_blocked ++ r1.search_terms_blocked).dedup.take 10).length = _
        rw [List.length_take]
        congr 1
        rw [show r1.search_terms_blocked.toFinset ∪ r2.search_terms_blocked.toFinset =
          (r2.search_terms_blocked ++ r1.search_terms_blocked).toFinset by
            rw [List.toFinset_append, Finset.union_comm]]
        exact (List.card_toFinset _).symm
  · unfold dedupAndSort
    haveI : IsTotal NegativeKeywordRecommendation
        (fun a b => b.wasted_spend ≤ a.wasted_spend) :=
      ⟨fun a b => (le_total b.wasted_spend a.wasted_spend).elim Or.inl Or.inr⟩
    haveI : IsTrans NegativeKeywordRecommendation
        (fun a b => b.wasted_spend ≤ a.wasted_spend) :=
      ⟨fun _ _ _ hab hbc => le_trans hbc hab⟩
    exact List.sorted_insertionSort _ _

/-- A high-confidence pattern detection for the term "Cheap". -/
def negA : NegativeKeywordRecommendation :=
  { negative_keyword := "Cheap"
    match_type := "phrase"
    application_level := "account"
    affected_campaigns := ["CAMP-1"]
    wasted_spend := 30
    wasted_clicks := 60
    search_terms_blocked := ["cheap sofa"]
    confidence_score := 9 / 10 }

/-- A lower-confidence word-mining detection for the same key. -/
def negB : NegativeKeywordRecommendation :=
  { negative_keyword := "cheap"
    match_type := "phrase"
    application_level := "campaign"
    affected_campaigns := ["CAMP-2"]
    wasted_spend := 20
    wasted_clicks := 50
    search_terms_blocked := ["cheap table"]
    confidence_score := 7 / 10 }

/-- Non-vacuity check for C9 on the concrete duplicate pair. -/
theorem c9_dedup_merge_witness :
    (∃ m, deduplicateRecommendations [negA, negB] = [m] ∧
      recKey m = recKey negA ∧
      m.wasted_spend = negA.wasted_spend + negB.wasted_spend ∧
      m.wasted_clicks = negA.wasted_clicks + negB.wasted_clicks ∧
      m.confidence_score = max negA.confidence_score negB.confidence_score ∧
      m.affected_campaigns.toFinset =
        negA.affected_campaigns.toFinset ∪ negB.affected_campaigns.toFinset ∧
      m.search_terms_blocked.toFinset ⊆
        negA.search_terms_blocked.toFinset ∪ negB.search_terms_blocked.toFinset ∧
      m.search_terms_blocked.length =
        min 10 (negA.search_terms_blocked.toFinset ∪ negB.search_terms_blocked.toFinset).card) ∧
    (dedupAndSort [negA, negB]).Sorted (fun a b => b.wasted_spend ≤ a.wasted_spend) :=
  c9_dedup_merge negA negB [negA, negB] (by decide)

end WayfairAds
